import Mathlib

/-!
Verification of the live-stream tester's playback orchestration core.

The definitions below are a shallow embedding of the repository's
orchestration logic:

* `src/unnamed/part_000` — the `StreamTester` component: sample-URL catalog,
  result log, start/stop/status handlers, backup-URL fallback and the
  "test all formats" sweep;
* `src/src/components/VideoPlayer.tsx` — the `VideoPlayer` component: engine
  dispatch (`initializePlayer`), teardown (`destroyPlayers`), and the Janus
  (ServerA-dialect) signaling message handler.

Stateful component code becomes explicit state passing; DOM / media side
effects that the claims talk about (status emissions, overlay messages,
network requests, resource releases) are recorded as explicit action lists.
-/

namespace LiveStreamTester

/-- The nine wire formats of the `VideoFormat` union type. -/
inductive VideoFormat
  | hls | dash | webrtc | mp4 | rtmp | rtsp | srt | flv | smooth
deriving DecidableEq, Repr

/-- Session status values: `"success" | "error" | "loading" | "not-tested"`. -/
inductive SessionStatus
  | success | error | loading | notTested
deriving DecidableEq, Repr

open VideoFormat SessionStatus

/-- Table `SAMPLE_STREAMS[format]`: the primary sample URL per format. -/
def samplePrimary : VideoFormat → String
  | hls => "https://test-streams.mux.dev/x36xhzz/x36xhzz.m3u8"
  | dash => "https://dash.akamaized.net/akamai/test/caption_test/ElephantsDream/elephants_dream_480p_heaac5_1.mpd"
  | webrtc => "wss://demo.cloudwebrtc.com:8443/ws"
  | mp4 => "https://test-videos.co.uk/vids/bigbuckbunny/mp4/h264/360/Big_Buck_Bunny_360_10s_1MB.mp4"
  | rtmp => "rtmp://live.twitch.tv/app/"
  | rtsp => "rtsp://wowzaec2demo.streamlock.net/vod/mp4:BigBuckBunny_115k.mp4"
  | srt => "srt://18.138.248.25:30000"
  | flv => "https://samples.mux.dev/big_buck_bunny_720p_1mb.flv"
  | smooth => "https://test.playready.microsoft.com/smoothstreaming/SSWSS720H264/SuperSpeedway_720.ism/manifest"

/-- Table `SAMPLE_STREAMS` under the `Backup` keys: the ordered backup URL list per format. -/
def sampleBackups : VideoFormat → List String
  | hls =>
    [ "https://demo.unified-streaming.com/k8s/features/stable/video/tears-of-steel/tears-of-steel.ism/.m3u8"
    , "https://playertest.longtailvideo.com/adaptive/bipbop/gear4/prog_index.m3u8"
    , "https://cph-p2p-msl.akamaized.net/hls/live/2000341/test/master.m3u8" ]
  | dash =>
    [ "https://demo.unified-streaming.com/k8s/features/stable/video/tears-of-steel/tears-of-steel.ism/.mpd"
    , "https://livesim.dashif.org/livesim/chunkdur_1/ato_7/testpic4_8s/Manifest.mpd"
    , "https://dash.akamaized.net/dash264/TestCases/1a/sony/SNE_DASH_SD_CASE1A_REVISED.mpd" ]
  | webrtc =>
    [ "wss://webrtc.live-video.net/janus"
    , "wss://webrtc-signaling.millicast.com/ws"
    , "wss://webrtc.echotest.io/ws" ]
  | mp4 =>
    [ "https://media.w3.org/2010/05/sintel/trailer.mp4"
    , "https://demo.unified-streaming.com/video/tears-of-steel/tears-of-steel.mp4" ]
  | rtmp =>
    [ "rtmp://fms.105.net/live/rmc1"
    , "rtmp://streaming.cityofboston.gov/live/cable" ]
  | rtsp =>
    [ "rtsp://demo.unified-streaming.com/video/tears-of-steel/tears-of-steel.mp4"
    , "rtsp://streaming.cityofboston.gov/live/cable" ]
  | srt =>
    [ "srt://srt-demo.streamroot.io:7001"
    , "srt://srt.streamroot.io:1234" ]
  | flv =>
    [ "https://dc.demuxed.com/video.flv"
    , "https://cdn.jsdelivr.net/gh/mayeaux/videojs-flashls-source-handler/video/test.flv"
    , "https://cdn.plyr.io/static/demo/View_From_A_Blue_Moon_Trailer-960x540.flv" ]
  | smooth =>
    [ "https://playready.directtaps.net/smoothstreaming/SSWSS720H264PR/SuperSpeedway_720.ism/Manifest"
    , "http://amssamples.streaming.mediaservices.windows.net/49b57c87-f5f3-48b3-ba22-c55cfdffa9cb/Sintel.ism/manifest" ]

/-- Function `getBackupCount`: number of available backup URLs for a format. -/
def getBackupCount (format : VideoFormat) : Nat :=
  (sampleBackups format).length

/-- Function `getCurrentUrl(format, backupIndex)`: the primary URL for index `-1`,
otherwise the backup URL at `backupIndex`, falling back to the primary when
the index is out of range (every format has a `Backup` entry, so the
`!backups` test of the source is never taken). -/
def getCurrentUrl (format : VideoFormat) (backupIndex : Int) : String :=
  if backupIndex = -1 then samplePrimary format
  else if (getBackupCount format : Int) ≤ backupIndex then samplePrimary format
  else ((sampleBackups format).get? backupIndex.toNat).getD ""

/-- One `StreamResult` entry of the result log.  The `id` field is ghost
instrumentation: it names the JavaScript object identity of the record so
that mutations of one record can be counted; it plays no role in control
flow. -/
structure StreamResult where
  id : Nat
  format : VideoFormat
  url : String
  status : SessionStatus
  timestamp : Nat
deriving DecidableEq, Repr

/-- The `StreamTester` component's reactive state (its signals), plus ghost
instrumentation: `nextId` numbers freshly created result records, and
`mutLog` records every `(record id, new status)` write that
`handleStatusChange` performs on an existing record. -/
structure CoreState where
  selectedFormat : VideoFormat
  inputUrl : String
  isTestActive : Bool
  status : SessionStatus
  results : List StreamResult
  backupUrlIndex : Int
  nextId : Nat
  mutLog : List (Nat × SessionStatus)
deriving DecidableEq, Repr

/-- Initial signal values of `StreamTester`. -/
def initCoreState : CoreState :=
  { selectedFormat := hls
  , inputUrl := samplePrimary hls
  , isTestActive := false
  , status := loading
  , results := []
  , backupUrlIndex := -1
  , nextId := 0
  , mutLog := [] }

/-- The record that `handleStartTest` constructs from the current signals. -/
def mkStartRecord (now : Nat) (s : CoreState) : StreamResult :=
  { id := s.nextId
  , format := s.selectedFormat
  , url := s.inputUrl
  , status := loading
  , timestamp := now }

/-- Handler `handleStartTest`: guard on an empty URL, else mark the test active, set
status to loading, and prepend one loading record (log kept to 10 entries). -/
def handleStartTest (now : Nat) (s : CoreState) : CoreState :=
  if s.inputUrl = "" then s
  else
    { s with
      isTestActive := true
      status := loading
      results := (mkStartRecord now s :: s.results).take 10
      nextId := s.nextId + 1 }

/-- The result-log update of `handleStatusChange`: `updated[0]` gets the new
status, everything else is untouched. -/
def updateHead (newStatus : SessionStatus) : List StreamResult → List StreamResult
  | [] => []
  | r :: rs => { r with status := newStatus } :: rs

/-- The mutation-log entries produced by one `handleStatusChange` call:
writing `updated[0] = { ...updated[0], status }` mutates the head record. -/
def mutEntries (newStatus : SessionStatus) : List StreamResult → List (Nat × SessionStatus)
  | [] => []
  | r :: _ => [(r.id, newStatus)]

/-- Handler `handleStatusChange`: set the status signal, overwrite the head record's
status, and — when the new status is `error`, the test is not marked active,
the format has backups, and the primary URL is in use — fall back to backup
index `0` and restart the test. -/
def handleStatusChange (now : Nat) (newStatus : SessionStatus) (s : CoreState) : CoreState :=
  let s1 : CoreState :=
    { s with
      status := newStatus
      results := updateHead newStatus s.results
      mutLog := mutEntries newStatus s.results ++ s.mutLog }
  if newStatus = error ∧ s1.isTestActive = false then
    if 0 < getBackupCount s1.selectedFormat ∧ s1.backupUrlIndex = -1 then
      handleStartTest now
        { s1 with
          backupUrlIndex := 0
          inputUrl := getCurrentUrl s1.selectedFormat 0 }
    else s1
  else s1

/-- Handler `handleStopTest`: only clears the active flag. -/
def handleStopTest (s : CoreState) : CoreState :=
  { s with isTestActive := false }

/-- The "Backup URL" button (and the "Try Next Backup Source" button): when
backups exist, advance the backup index by `(current + 1) % backupCount` and
load that backup URL. -/
def handleNextBackupClick (s : CoreState) : CoreState :=
  let n := getBackupCount s.selectedFormat
  if 0 < n then
    let nextIndex : Int := (s.backupUrlIndex + 1) % (n : Int)
    { s with
      backupUrlIndex := nextIndex
      inputUrl := getCurrentUrl s.selectedFormat nextIndex }
  else s

/-- The settled effect of `debouncedFormatChange`: the test is stopped
immediately, and once the 100 ms timer fires the batch sets the format,
resets the backup index, and loads the format's primary sample URL. -/
def debouncedFormatChangeSettled (format : VideoFormat) (s : CoreState) : CoreState :=
  { s with
    isTestActive := false
    selectedFormat := format
    backupUrlIndex := -1
    inputUrl := samplePrimary format }

/-- The per-format batch at the top of the `handleTestAll` sweep loop:
set the format, reset the backup index, and load the format's URL. -/
def sweepSetFormat (format : VideoFormat) (s : CoreState) : CoreState :=
  { s with
    selectedFormat := format
    backupUrlIndex := -1
    inputUrl := getCurrentUrl format (-1) }

/-- Events that drive the `StreamTester` core: a start-test click and a
status callback from the player. -/
inductive CoreEvent
  | start (now : Nat)
  | statusCb (now : Nat) (st : SessionStatus)
deriving DecidableEq, Repr

/-- One core step. -/
def coreStep (s : CoreState) : CoreEvent → CoreState
  | .start now => handleStartTest now s
  | .statusCb now st => handleStatusChange now st s

/-- Run of the core over an event sequence. -/
def runCore (events : List CoreEvent) (s : CoreState) : CoreState :=
  events.foldl coreStep s

/-! ## The `handleTestAll` sweep's bounded wait

`handleTestAll` waits per format with a 500 ms `setInterval` poll and a
10 000 ms `setTimeout`; the timeout clears the interval, forces
`handleStatusChange("error")` and resolves.  Between formats a 1 000 ms
settling delay runs before the loop proceeds. -/

/-- Poll granularity of the sweep's wait (`setInterval(checkStatus, 500)`). -/
def sweepPollMs : Nat := 500

/-- Hard bound of the sweep's wait (`setTimeout(..., 10000)`). -/
def sweepTimeoutMs : Nat := 10000

/-- Settling delay between sweep steps (`setTimeout(resolve, 1000)`). -/
def sweepSettleMs : Nat := 1000

/-- The wait of one sweep step, over the status signal sampled at absolute
times: poll ticks run at `500·k` for `k = 1, 2, …` strictly before the
10 000 ms timeout; the first tick whose sampled status is not `loading`
resolves the wait, otherwise the timeout resolves it at 10 000 ms.  Returns
the resolve time and whether the timeout fired. -/
def sweepAwait (statusAt : Nat → SessionStatus) : Nat × Bool :=
  match (List.range 19).find? (fun k => statusAt (sweepPollMs * (k + 1)) ≠ loading) with
  | some k => (sweepPollMs * (k + 1), false)
  | none => (sweepTimeoutMs, true)

/-- Elapsed time of one sweep step after its session start: the wait plus
the settling delay before the loop proceeds to the next format. -/
def sweepStepElapsed (statusAt : Nat → SessionStatus) : Nat :=
  (sweepAwait statusAt).1 + sweepSettleMs

/-! ## The `VideoPlayer` component

State of the player's engine/connection handles and the output surface,
with teardown (`destroyPlayers`) and dispatch (`initializePlayer`) as
action-emitting functions. -/

/-- The module-level handle variables of `VideoPlayer`: `true` means the
handle is non-null (a live instance). -/
structure PlayerHandles where
  hlsInstance : Bool
  dashInstance : Bool
  shakaInstance : Bool
  peerConnection : Bool
  webSocketConnection : Bool
  flvPlayer : Bool
deriving DecidableEq, Repr

/-- State of the `VideoPlayer` component: handles, the video element's
`srcObject` and `src`, the overlay elements added to the surface's parent,
and the player's status signal. -/
structure VideoState where
  handles : PlayerHandles
  srcObject : Bool
  src : String
  overlays : Nat
  status : SessionStatus
deriving DecidableEq, Repr

/-- Resource releases performed by `destroyPlayers`, one per handle kind. -/
inductive ReleaseAction
  | hlsDestroy | dashReset | shakaDestroy | pcClose | wsClose | tracksStop | flvDestroy
deriving DecidableEq, Repr

/-- Teardown `destroyPlayers`: each handle is released and nulled only if it is
currently non-null (the WebSocket `close()` additionally guarded by its
ready state is subsumed in the live flag); the media stream's tracks are
stopped only if `srcObject` is set; the video element is reset and all
overlay elements removed unconditionally.  The status signal is untouched.
Returns the new state and the list of releases performed. -/
def destroyPlayers (s : VideoState) : VideoState × List ReleaseAction :=
  let hlsR := if s.handles.hlsInstance then [ReleaseAction.hlsDestroy] else []
  let dashR := if s.handles.dashInstance then [ReleaseAction.dashReset] else []
  let shakaR := if s.handles.shakaInstance then [ReleaseAction.shakaDestroy] else []
  let pcR := if s.handles.peerConnection then [ReleaseAction.pcClose] else []
  let wsR := if s.handles.webSocketConnection then [ReleaseAction.wsClose] else []
  let trackR := if s.srcObject then [ReleaseAction.tracksStop] else []
  let flvR := if s.handles.flvPlayer then [ReleaseAction.flvDestroy] else []
  ( { handles :=
        { hlsInstance := false
        , dashInstance := false
        , shakaInstance := false
        , peerConnection := false
        , webSocketConnection := false
        , flvPlayer := false }
    , srcObject := false
    , src := ""
    , overlays := 0
    , status := s.status }
  , hlsR ++ dashR ++ shakaR ++ pcR ++ wsR ++ trackR ++ flvR )

/-- Runtime capabilities probed at engine selection time. -/
structure Caps where
  hlsJsSupported : Bool
  nativeHls : Bool
  flvJsSupported : Bool
  shakaSupported : Bool
  rtcSupported : Bool
deriving DecidableEq, Repr

/-- Observable side effects of the synchronous part of `initializePlayer`:
a status emission through `onStatusChange`, the start of network I/O
(engine source load, media `src` assignment, WebSocket connect), or an
overlay message inserted over the surface. -/
inductive PAction
  | statusEmit (st : SessionStatus)
  | networkRequest
  | overlay (msg : String)
deriving DecidableEq, Repr

/-- The headline text of the overlay inserted for each format with no
browser-side playback path. -/
def unsupportedMsg : VideoFormat → String
  | rtmp => "RTMP requires a custom implementation"
  | rtsp => "RTSP is not supported in browsers"
  | srt => "SRT is not supported in browsers"
  | _ => ""

/-- The `switch (props.format)` dispatch of `initializePlayer` — the
synchronous part of every branch, from `src/src/components/VideoPlayer.tsx`.
Asynchronous completions (manifest parsed, ICE state changes, …) arrive
later as status callbacks and are not part of the synchronous dispatch. -/
def engineInit (fmt : VideoFormat) (caps : Caps) (url : String) (s : VideoState) :
    VideoState × List PAction :=
  match fmt with
  | hls =>
    if caps.hlsJsSupported then
      ({ s with handles := { s.handles with hlsInstance := true } }, [PAction.networkRequest])
    else if caps.nativeHls then
      ({ s with src := url }, [PAction.networkRequest])
    else
      ({ s with status := error }, [PAction.statusEmit error])
  | dash =>
    ({ s with handles := { s.handles with dashInstance := true } }, [PAction.networkRequest])
  | webrtc =>
    if ¬caps.rtcSupported then
      ({ s with status := error, overlays := s.overlays + 1 }
      , [PAction.statusEmit error, PAction.overlay "WebRTC initialization failed"])
    else if (url.toLower.splitOn "janus").length > 1 then
      ({ s with handles := { s.handles with webSocketConnection := true }
              , overlays := s.overlays + 1 }
      , [PAction.networkRequest])
    else if (url.toLower.splitOn "echotest").length > 1 then
      ({ s with handles := { s.handles with webSocketConnection := true }
              , overlays := s.overlays + 1 }
      , [PAction.networkRequest])
    else
      ({ s with handles := { s.handles with peerConnection := true
                                          , webSocketConnection := true }
              , overlays := s.overlays + 1 }
      , [PAction.networkRequest])
  | mp4 =>
    ({ s with src := url }, [PAction.networkRequest])
  | rtmp =>
    ({ s with status := error, overlays := s.overlays + 1 }
    , [PAction.statusEmit error, PAction.overlay (unsupportedMsg rtmp)])
  | rtsp =>
    ({ s with status := error, overlays := s.overlays + 1 }
    , [PAction.statusEmit error, PAction.overlay (unsupportedMsg rtsp)])
  | srt =>
    ({ s with status := error, overlays := s.overlays + 1 }
    , [PAction.statusEmit error, PAction.overlay (unsupportedMsg srt)])
  | flv =>
    if caps.flvJsSupported then
      ({ s with handles := { s.handles with flvPlayer := true } }, [PAction.networkRequest])
    else
      ({ s with status := error, overlays := s.overlays + 1 }
      , [PAction.statusEmit error, PAction.overlay "FLV playback is not supported"])
  | smooth =>
    if caps.shakaSupported then
      ({ s with handles := { s.handles with shakaInstance := true } }, [PAction.networkRequest])
    else
      ({ s with status := error }, [PAction.statusEmit error])

/-- Dispatch `initializePlayer`: clean up any existing instances first
(`destroyPlayers()`), reset the video element, report `loading`, then
dispatch on the format. -/
def initializePlayer (fmt : VideoFormat) (caps : Caps) (url : String) (s : VideoState) :
    VideoState × List PAction :=
  let s1 : VideoState := { (destroyPlayers s).1 with src := "", status := loading }
  ((engineInit fmt caps url s1).1
  , PAction.statusEmit loading :: (engineInit fmt caps url s1).2)

/-- Operations on one output surface, as the claims list them:
`effectChange` is the synchronous body of the `createEffect` that reacts to
a format/URL change or a test start (it tears down and schedules the
deferred initialize); `timerInit` is that deferred `initializePlayer` run
50 ms later; `unmount` is the `onCleanup` teardown run on stop or when the
sweep advances. -/
inductive PlayerOp
  | effectChange
  | timerInit (fmt : VideoFormat) (caps : Caps) (url : String)
  | unmount
deriving Repr

/-- One lifecycle step of the player. -/
def playerStep (s : VideoState) : PlayerOp → VideoState
  | .effectChange => (destroyPlayers s).1
  | .timerInit fmt caps url => (initializePlayer fmt caps url s).1
  | .unmount => (destroyPlayers s).1

/-- Run of the player over an operation sequence. -/
def runPlayer (ops : List PlayerOp) (s : VideoState) : VideoState :=
  ops.foldl playerStep s

/-- Initial state of a freshly mounted `VideoPlayer`. -/
def initVideoState : VideoState :=
  { handles :=
      { hlsInstance := false
      , dashInstance := false
      , shakaInstance := false
      , peerConnection := false
      , webSocketConnection := false
      , flvPlayer := false }
  , srcObject := false
  , src := ""
  , overlays := 0
  , status := loading }

/-- Number of live engine bindings: each of the HLS, DASH, Shaka and FLV
handles is one engine; the WebRTC binding (peer connection and/or its
signaling WebSocket) counts as one engine. -/
def liveEngines (s : VideoState) : Nat :=
  (cond s.handles.hlsInstance 1 0) + (cond s.handles.dashInstance 1 0) +
  (cond s.handles.shakaInstance 1 0) + (cond s.handles.flvPlayer 1 0) +
  (cond (s.handles.peerConnection || s.handles.webSocketConnection) 1 0)

/-! ## The Janus (ServerA dialect) signaling message handler

`connectToJanusServer`'s `onmessage` handler, from
`src/src/components/VideoPlayer.tsx`. -/

/-- A parsed Janus signaling message, restricted to the fields the handler
reads: the `janus` type tag, `data.id`, presence of `plugindata`, and the
`jsep` field (`none` = absent; `some b` = present, with `b` recording
whether `jsep.type === "answer"`). -/
structure JanusMsg where
  janus : String
  dataId : Option String
  plugindata : Bool
  jsepIsAnswer : Option Bool
deriving DecidableEq, Repr

/-- State of the Janus signaling session: negotiated ids, whether the peer
connection has been created, the component's status signal, the diagnostic
status line, and the kinds of requests sent so far (newest first). -/
structure JanusState where
  sessionId : Option String
  handleId : Option String
  pcLive : Bool
  status : SessionStatus
  statusText : String
  sent : List String
deriving DecidableEq, Repr

/-- Session state right after `onopen` sent the `create` request. -/
def janusInitState : JanusState :=
  { sessionId := none
  , handleId := none
  , pcLive := false
  , status := loading
  , statusText := "Connected to Janus, creating session..."
  , sent := ["create"] }

/-- The Janus `onmessage` handler body.  Branches in source order:
`success` with a `data.id` takes the first branch (treated as the session
`create` reply, storing the id and sending `attach` — note the second,
`attach`-reply branch requires the same condition plus `!plugindata`, so it
is shadowed and never taken); `event` with a `jsep` applies an `answer`
description when a peer connection exists; everything else falls through
with no state change beyond the diagnostic status line. -/
def handleJanusMessage (st : JanusState) (m : JanusMsg) : JanusState :=
  let st := { st with statusText := "Janus: " ++ m.janus }
  if m.janus = "success" ∧ m.dataId.isSome then
    { st with sessionId := m.dataId, sent := "attach" :: st.sent }
  else if m.janus = "success" ∧ m.dataId.isSome ∧ m.plugindata = false then
    { st with handleId := m.dataId, pcLive := true, sent := "message" :: st.sent }
  else if m.janus = "event" ∧ m.jsepIsAnswer.isSome then
    if m.jsepIsAnswer = some true ∧ st.pcLive then
      { st with statusText := "Received and set remote description" }
    else st
  else st

/-- An incoming WebSocket frame: either `JSON.parse` (or downstream message
handling) throws — caught by the handler's `catch`, which reports `error` —
or a message parses into the fields above. -/
inductive JanusIncoming
  | parseFail
  | msg (m : JanusMsg)
deriving DecidableEq, Repr

/-- Top-level `onmessage` with its `try`/`catch`. -/
def handleJanusIncoming (st : JanusState) : JanusIncoming → JanusState
  | .parseFail => { st with status := error }
  | .msg m => handleJanusMessage st m

/-! ## Helper lemmas -/

lemma liveEngines_destroyPlayers (s : VideoState) :
    liveEngines (destroyPlayers s).1 = 0 := rfl

lemma liveEngines_initializePlayer (fmt : VideoFormat) (caps : Caps) (url : String)
    (s : VideoState) : liveEngines (initializePlayer fmt caps url s).1 ≤ 1 := by
  cases fmt <;>
    simp only [initializePlayer, engineInit, destroyPlayers, liveEngines] <;>
    (try split_ifs) <;> simp

lemma playerStep_live (s : VideoState) (op : PlayerOp) :
    liveEngines (playerStep s op) ≤ 1 := by
  cases op with
  | effectChange => simp [playerStep, liveEngines_destroyPlayers]
  | timerInit fmt caps url => exact liveEngines_initializePlayer fmt caps url s
  | unmount => simp [playerStep, liveEngines_destroyPlayers]

lemma runPlayer_live (ops : List PlayerOp) (s : VideoState) (h : liveEngines s ≤ 1) :
    liveEngines (runPlayer ops s) ≤ 1 := by
  induction ops generalizing s with
  | nil => simpa [runPlayer] using h
  | cons op ops ih =>
      rw [runPlayer, List.foldl_cons]
      exact ih _ (playerStep_live s op)

lemma handleStartTest_backupIdx (now : Nat) (s : CoreState) :
    (handleStartTest now s).backupUrlIndex = s.backupUrlIndex := by
  unfold handleStartTest
  split <;> rfl

lemma handleNextBackupClick_format (s : CoreState) :
    (handleNextBackupClick s).selectedFormat = s.selectedFormat := by
  unfold handleNextBackupClick
  dsimp only
  split <;> rfl

lemma handleNextBackupClick_idx (s : CoreState)
    (hn : 0 < getBackupCount s.selectedFormat) :
    (handleNextBackupClick s).backupUrlIndex
      = (s.backupUrlIndex + 1) % (getBackupCount s.selectedFormat : Int) := by
  unfold handleNextBackupClick
  dsimp only
  rw [if_pos hn]

lemma backupCycle_iter (k : Nat) (s : CoreState)
    (hn : 0 < getBackupCount s.selectedFormat)
    (h0 : 0 ≤ s.backupUrlIndex)
    (hlt : s.backupUrlIndex < (getBackupCount s.selectedFormat : Int)) :
    (handleNextBackupClick^[k] s).backupUrlIndex
      = (s.backupUrlIndex + k) % (getBackupCount s.selectedFormat : Int) := by
  induction k generalizing s with
  | zero => simp [Int.emod_eq_of_lt h0 hlt]
  | succ k ih =>
      rw [Function.iterate_succ_apply]
      have hpos : (0 : Int) < (getBackupCount s.selectedFormat : Int) := by
        exact_mod_cast hn
      have hfmt := handleNextBackupClick_format s
      have hidx := handleNextBackupClick_idx s hn
      have hn' : 0 < getBackupCount (handleNextBackupClick s).selectedFormat := by
        rw [hfmt]; exact hn
      have h0' : 0 ≤ (handleNextBackupClick s).backupUrlIndex := by
        rw [hidx]; exact Int.emod_nonneg _ hpos.ne'
      have hlt' : (handleNextBackupClick s).backupUrlIndex
          < (getBackupCount (handleNextBackupClick s).selectedFormat : Int) := by
        rw [hidx, hfmt]; exact Int.emod_lt_of_pos _ hpos
      rw [ih _ hn' h0' hlt', hidx, hfmt]
      rw [Int.add_emod, Int.emod_emod_of_dvd _ dvd_rfl, ← Int.add_emod]
      congr 1
      push_cast
      ring

lemma getCurrentUrl_backup0_ne (fmt : VideoFormat) : getCurrentUrl fmt 0 ≠ "" := by
  cases fmt <;> decide

lemma handleStatusChange_active_status (now : Nat) (s : CoreState)
    (h : s.isTestActive = true) :
    (handleStatusChange now error s).status = error := by
  unfold handleStatusChange
  dsimp only
  rw [if_neg (fun hc => by rw [h] at hc; exact Bool.noConfusion hc.2)]

/-! ## Claim theorems -/

/-- C1: over every sequence of operations on one output surface
(format/URL change, deferred initialize, stop/unmount/sweep teardown), at
most one engine binding is ever live, because `initializePlayer` always runs
the complete `destroyPlayers` teardown before the engine dispatch begins —
its result only depends on the torn-down state. -/
theorem c1_teardown_before_init (ops : List PlayerOp) :
    liveEngines (runPlayer ops initVideoState) ≤ 1 ∧
    ∀ (fmt : VideoFormat) (caps : Caps) (url : String) (s : VideoState),
      (initializePlayer fmt caps url s).1
        = (engineInit fmt caps url
            { (destroyPlayers s).1 with src := "", status := loading }).1 :=
  ⟨runPlayer_live ops initVideoState (by decide), fun _ _ _ _ => rfl⟩

/-- C9: `destroyPlayers` is idempotent: the first call nulls every engine
and connection handle (and clears `srcObject`), so a second call changes
nothing and performs no release action at all. -/
theorem c9_teardown_idempotent (s : VideoState) :
    (destroyPlayers (destroyPlayers s).1).1 = (destroyPlayers s).1 ∧
    (destroyPlayers (destroyPlayers s).1).2 = [] ∧
    (destroyPlayers s).1.handles = initVideoState.handles ∧
    (destroyPlayers s).1.srcObject = false :=
  ⟨rfl, rfl, rfl, rfl⟩

/-- C7: after a settled format change and after the sweep's per-format
batch, the backup index is `-1` (primary source): a backup selection never
survives a format change. -/
theorem c7_format_change_resets_backup (fmt : VideoFormat) (s : CoreState) :
    (debouncedFormatChangeSettled fmt s).backupUrlIndex = -1 ∧
    (sweepSetFormat fmt s).backupUrlIndex = -1 :=
  ⟨rfl, rfl⟩

/-- C10: starting a test with an empty input URL is a no-op on the core
state: no record is appended, the status signal is unchanged, and no test
becomes active. -/
theorem c10_empty_url_start_noop (now : Nat) (s : CoreState) (h : s.inputUrl = "") :
    handleStartTest now s = s := by
  simp [handleStartTest, h]

theorem c10_empty_url_start_noop_witness :
    handleStartTest 0 { initCoreState with inputUrl := "" }
      = { initCoreState with inputUrl := "" } :=
  c10_empty_url_start_noop 0 { initCoreState with inputUrl := "" } rfl

/-- C4: for the formats with no browser-side playback path (`rtmp`, `rtsp`,
`srt`), `initializePlayer` reports `error` synchronously with a
human-readable unsupported-protocol overlay, performs no network I/O, and
leaves no engine live. -/
theorem c4_unsupported_immediate_error (fmt : VideoFormat) (caps : Caps)
    (url : String) (s : VideoState)
    (h : fmt = rtmp ∨ fmt = rtsp ∨ fmt = srt) :
    (initializePlayer fmt caps url s).1.status = error ∧
    PAction.networkRequest ∉ (initializePlayer fmt caps url s).2 ∧
    (initializePlayer fmt caps url s).2
      = [PAction.statusEmit loading, PAction.statusEmit error,
         PAction.overlay (unsupportedMsg fmt)] ∧
    liveEngines (initializePlayer fmt caps url s).1 = 0 := by
  rcases h with h | h | h <;> subst h <;>
    exact ⟨rfl, by simp [initializePlayer, engineInit], rfl, rfl⟩

lemma handleStartTest_mutLog (now : Nat) (s : CoreState) :
    (handleStartTest now s).mutLog = s.mutLog := by
  unfold handleStartTest
  split <;> rfl

lemma handleStatusChange_mutLog (now : Nat) (st : SessionStatus) (s : CoreState) :
    (handleStatusChange now st s).mutLog = mutEntries st s.results ++ s.mutLog := by
  unfold handleStatusChange
  dsimp only
  split_ifs <;> simp [handleStartTest_mutLog]

lemma mutEntries_head (st : SessionStatus) (l : List StreamResult) :
    mutEntries st l = (l.head?.map fun r => (r.id, st)).toList := by
  cases l <;> rfl

/-- C2 counterexample: from the initial state, run a test start followed by
two status callbacks (`success`, then `error` — e.g. DASH starts playing
and later reports a fatal error).  The single record created by the start
(id 0) is mutated twice, with two different values, refuting "that same
record is subsequently mutated at most once, to its terminal value". -/
theorem c2_counterexample :
    ((runCore [CoreEvent.start 1, CoreEvent.statusCb 2 success, CoreEvent.statusCb 3 error]
        initCoreState).mutLog.filter (fun p => p.1 = 0)).length = 2 ∧
    (runCore [CoreEvent.start 1, CoreEvent.statusCb 2 success, CoreEvent.statusCb 3 error]
        initCoreState).mutLog = [(0, error), (0, success)] ∧
    ¬ (2 ≤ 1) := by
  exact ⟨by decide, by decide, by decide⟩

/-- C2 amended: every test start with a nonempty URL appends exactly one
record, with status `Loading`, at the head of the result log; every status
callback performs exactly one record write, and only on the most recent
(head) record — to the reported status, which may repeat and may be
non-terminal — never touching an older record. -/
theorem c2_amended (now : Nat) (st : SessionStatus) (s : CoreState)
    (h : s.inputUrl ≠ "") :
    (handleStartTest now s).results = mkStartRecord now s :: s.results.take 9 ∧
    (mkStartRecord now s).status = loading ∧
    (handleStatusChange now st s).mutLog
      = (s.results.head?.map fun r => (r.id, st)).toList ++ s.mutLog ∧
    (updateHead st s.results).tail = s.results.tail := by
  refine ⟨?_, rfl, ?_, ?_⟩
  · simp [handleStartTest, h]
  · rw [handleStatusChange_mutLog, mutEntries_head]
  · cases s.results <;> rfl

theorem c2_amended_witness :
    (handleStartTest 4 initCoreState).results
        = mkStartRecord 4 initCoreState :: initCoreState.results.take 9 ∧
    (handleStatusChange 5 error initCoreState).mutLog
        = (initCoreState.results.head?.map fun r => (r.id, error)).toList
            ++ initCoreState.mutLog :=
  ⟨(c2_amended 4 error initCoreState (by decide)).1,
   (c2_amended 5 error initCoreState (by decide)).2.2.1⟩

/-- C3 counterexample: ServerA (Janus) signaling receives a `create`
success, then an `attach` success, then an `event` lacking `jsep`.  The
malformed `event` matches no handler branch: the session status stays
`loading` — a non-terminal state with no captured failure diagnostic — it
does not transition to Failed/`error` as the claim requires. -/
theorem c3_counterexample :
    (handleJanusMessage (handleJanusMessage (handleJanusMessage janusInitState
        { janus := "success", dataId := some "8001", plugindata := false
        , jsepIsAnswer := none })
        { janus := "success", dataId := some "9002", plugindata := false
        , jsepIsAnswer := none })
        { janus := "event", dataId := none, plugindata := false
        , jsepIsAnswer := none }).status = loading ∧
    loading ≠ error := by
  exact ⟨by decide, by decide⟩

/-- C3 amended: a message matching no handler branch (unrecognized `janus`
type, `success` without `data.id`, or `event` without `jsep`) is silently
ignored — only the on-screen diagnostic line changes, the status and the
rest of the session state stay as they were; the session reaches `error`
only when message handling throws (e.g. unparsable JSON, modeled by
`parseFail`), or through channel error/close and ICE failure outside this
handler. -/
theorem c3_amended (st : JanusState) (m : JanusMsg)
    (h1 : ¬(m.janus = "success" ∧ m.dataId.isSome))
    (h2 : ¬(m.janus = "event" ∧ m.jsepIsAnswer.isSome)) :
    handleJanusMessage st m = { st with statusText := "Janus: " ++ m.janus } ∧
    (handleJanusMessage st m).status = st.status ∧
    (handleJanusIncoming st JanusIncoming.parseFail).status = error := by
  have h2' : ¬(m.janus = "success" ∧ m.dataId.isSome ∧ m.plugindata = false) :=
    fun hx => h1 ⟨hx.1, hx.2.1⟩
  have he : handleJanusMessage st m = { st with statusText := "Janus: " ++ m.janus } := by
    unfold handleJanusMessage
    rw [if_neg h1, if_neg h2', if_neg h2]
  exact ⟨he, by rw [he], rfl⟩

theorem c3_amended_witness :
    handleJanusMessage janusInitState
        { janus := "event", dataId := none, plugindata := false, jsepIsAnswer := none }
      = { janusInitState with statusText := "Janus: " ++ "event" } ∧
    (handleJanusIncoming janusInitState JanusIncoming.parseFail).status = error :=
  ⟨(c3_amended janusInitState
      { janus := "event", dataId := none, plugindata := false, jsepIsAnswer := none }
      (by decide) (by decide)).1,
   (c3_amended janusInitState
      { janus := "event", dataId := none, plugindata := false, jsepIsAnswer := none }
      (by decide) (by decide)).2.2⟩

theorem c4_unsupported_immediate_error_witness :
    (initializePlayer rtmp
        { hlsJsSupported := true, nativeHls := false, flvJsSupported := true
        , shakaSupported := true, rtcSupported := true }
        (samplePrimary rtmp) initVideoState).1.status = error ∧
    PAction.networkRequest ∉ (initializePlayer rtmp
        { hlsJsSupported := true, nativeHls := false, flvJsSupported := true
        , shakaSupported := true, rtcSupported := true }
        (samplePrimary rtmp) initVideoState).2 :=
  ⟨(c4_unsupported_immediate_error rtmp _ _ _ (Or.inl rfl)).1,
   (c4_unsupported_immediate_error rtmp _ _ _ (Or.inl rfl)).2.1⟩

/-- C5: every fallback step follows the `(current + 1) % backupCount` rule:
the user-triggered backup button advances by exactly that; from the primary
(`-1`) the first step selects index `0`; iterating the step `backupCount`
times returns to the same index (cycling with period `backupCount`); and
the automatic fallback of `handleStatusChange` also lands on
`(current + 1) % backupCount`. -/
theorem c5_backup_cycle (now : Nat) (s : CoreState)
    (hn : 0 < getBackupCount s.selectedFormat) :
    (handleNextBackupClick s).backupUrlIndex
        = (s.backupUrlIndex + 1) % (getBackupCount s.selectedFormat : Int) ∧
    (s.backupUrlIndex = -1 → (handleNextBackupClick s).backupUrlIndex = 0) ∧
    (0 ≤ s.backupUrlIndex →
      s.backupUrlIndex < (getBackupCount s.selectedFormat : Int) →
      (handleNextBackupClick^[getBackupCount s.selectedFormat] s).backupUrlIndex
        = s.backupUrlIndex) ∧
    (s.isTestActive = false → s.backupUrlIndex = -1 →
      (handleStatusChange now error s).backupUrlIndex
        = (s.backupUrlIndex + 1) % (getBackupCount s.selectedFormat : Int)) := by
  refine ⟨handleNextBackupClick_idx s hn, ?_, ?_, ?_⟩
  · intro hidx
    rw [handleNextBackupClick_idx s hn, hidx]
    simp
  · intro h0 hlt
    rw [backupCycle_iter _ s hn h0 hlt]
    have hrw : s.backupUrlIndex + (getBackupCount s.selectedFormat : Int)
        = s.backupUrlIndex + (getBackupCount s.selectedFormat : Int) * 1 := by ring
    rw [hrw, Int.add_mul_emod_self_left]
    exact Int.emod_eq_of_lt h0 hlt
  · intro hactive hidx
    have hz : (handleStatusChange now error s).backupUrlIndex = 0 := by
      unfold handleStatusChange
      dsimp only
      rw [if_pos ⟨rfl, hactive⟩, if_pos ⟨hn, hidx⟩, handleStartTest_backupIdx]
    rw [hz, hidx]
    simp

theorem c5_backup_cycle_witness :
    0 < getBackupCount initCoreState.selectedFormat ∧
    (handleNextBackupClick initCoreState).backupUrlIndex
      = (initCoreState.backupUrlIndex + 1)
          % (getBackupCount initCoreState.selectedFormat : Int) ∧
    (handleNextBackupClick initCoreState).backupUrlIndex = 0 ∧
    (handleStatusChange 2 error initCoreState).backupUrlIndex
      = (initCoreState.backupUrlIndex + 1)
          % (getBackupCount initCoreState.selectedFormat : Int) :=
  ⟨by decide,
   (c5_backup_cycle 2 initCoreState (by decide)).1,
   (c5_backup_cycle 2 initCoreState (by decide)).2.1 rfl,
   (c5_backup_cycle 2 initCoreState (by decide)).2.2.2 rfl rfl⟩

/-- The state the automatic fallback path of `handleStatusChange` produces
on `error`: head record set to `error`, backup index `0` selected, its URL
loaded, test restarted (fresh loading record, status back to loading). -/
def autoFallbackOutcome (now : Nat) (s : CoreState) : CoreState :=
  { selectedFormat := s.selectedFormat
  , inputUrl := getCurrentUrl s.selectedFormat 0
  , isTestActive := true
  , status := loading
  , results :=
      ({ id := s.nextId, format := s.selectedFormat
       , url := getCurrentUrl s.selectedFormat 0, status := loading
       , timestamp := now } :: updateHead error s.results).take 10
  , backupUrlIndex := 0
  , nextId := s.nextId + 1
  , mutLog := mutEntries error s.results ++ s.mutLog }

/-- The state `handleStatusChange` produces when no fallback applies: only
the status signal and the head record change. -/
def statusOnlyOutcome (st : SessionStatus) (s : CoreState) : CoreState :=
  { s with
    status := st
    results := updateHead st s.results
    mutLog := mutEntries st s.results ++ s.mutLog }

/-- C6 counterexample: from the initial state, start a test and let the
status transition to `error`.  The backup index is `-1` and the format
(`hls`) has backups, so the claim demands an automatic fallback — but the
code additionally requires `!isTestActive()`, which is `true` during the
running test, so no fallback happens: the index stays `-1`, no record is
appended, and the input URL remains the primary. -/
theorem c6_counterexample :
    (runCore [CoreEvent.start 5, CoreEvent.statusCb 7 error] initCoreState).backupUrlIndex
        = -1 ∧
    (runCore [CoreEvent.start 5, CoreEvent.statusCb 7 error] initCoreState).results.length
        = 1 ∧
    (runCore [CoreEvent.start 5, CoreEvent.statusCb 7 error] initCoreState).inputUrl
        = samplePrimary hls ∧
    0 < getBackupCount hls := by
  exact ⟨by decide, by decide, by decide, by decide⟩

/-- C6 amended: automatic fallback additionally requires that the test is
not currently marked active.  When status becomes `error` with
`isTestActive = false`, backup index `-1` and at least one backup, exactly
one fallback occurs (index `0` selected, its URL loaded, test restarted
with one fresh loading record); when a backup source is already in use
(index ≠ `-1`), no fallback occurs — only the status and head record are
updated. -/
theorem c6_amended (now : Nat) (s : CoreState) :
    (s.isTestActive = false → s.backupUrlIndex = -1 →
      0 < getBackupCount s.selectedFormat →
      handleStatusChange now error s = autoFallbackOutcome now s) ∧
    (s.backupUrlIndex ≠ -1 →
      handleStatusChange now error s = statusOnlyOutcome error s) := by
  constructor
  · intro hactive hidx hn
    have hurl := getCurrentUrl_backup0_ne s.selectedFormat
    unfold handleStatusChange
    dsimp only
    rw [if_pos ⟨rfl, hactive⟩, if_pos ⟨hn, hidx⟩]
    unfold handleStartTest
    rw [if_neg hurl]
    rfl
  · intro hidx
    unfold handleStatusChange
    dsimp only
    split_ifs with h1 h2
    · exact absurd h2.2 hidx
    · rfl
    · rfl

theorem c6_amended_witness :
    handleStatusChange 6 error initCoreState = autoFallbackOutcome 6 initCoreState ∧
    handleStatusChange 6 error { initCoreState with backupUrlIndex := 1 }
      = statusOnlyOutcome error { initCoreState with backupUrlIndex := 1 } :=
  ⟨(c6_amended 6 initCoreState).1 rfl rfl (by decide),
   (c6_amended 6 { initCoreState with backupUrlIndex := 1 }).2 (by decide)⟩

/-- C8: the sweep's per-format wait resolves at the first 500 ms poll tick
at which the status has left `loading`, and in any case within 10 000 ms;
when the timeout fires the status was still `loading` at every poll tick,
and the forced `handleStatusChange("error")` (with the test active, as it
is during a sweep) drives the status to `error`; the step then proceeds
after the 1 000 ms settling delay. -/
theorem c8_sweep_wait (statusAt : Nat → SessionStatus) (now : Nat) (s : CoreState) :
    (sweepAwait statusAt).1 ≤ sweepTimeoutMs ∧
    sweepTimeoutMs = 10000 ∧ sweepPollMs = 500 ∧ sweepSettleMs = 1000 ∧
    ((sweepAwait statusAt).2 = false →
      statusAt (sweepAwait statusAt).1 ≠ loading ∧
      (sweepAwait statusAt).1 % sweepPollMs = 0 ∧ 0 < (sweepAwait statusAt).1) ∧
    ((sweepAwait statusAt).2 = true →
      (sweepAwait statusAt).1 = sweepTimeoutMs ∧
      ∀ k, k < 19 → statusAt (sweepPollMs * (k + 1)) = loading) ∧
    (s.isTestActive = true → (handleStatusChange now error s).status = error) ∧
    sweepStepElapsed statusAt = (sweepAwait statusAt).1 + sweepSettleMs := by
  cases hfind : (List.range 19).find?
      (fun k => decide (statusAt (sweepPollMs * (k + 1)) ≠ loading)) with
  | none =>
      have hA : sweepAwait statusAt = (sweepTimeoutMs, true) := by
        unfold sweepAwait
        rw [hfind]
      refine ⟨?_, rfl, rfl, rfl, ?_, ?_, handleStatusChange_active_status now s, rfl⟩
      · rw [hA]
      · rw [hA]
        intro h
        exact absurd h (by simp)
      · intro _
        rw [hA]
        refine ⟨rfl, fun k hk => ?_⟩
        have := List.find?_eq_none.mp hfind k (List.mem_range.mpr hk)
        simpa using this
  | some k =>
      have hA : sweepAwait statusAt = (sweepPollMs * (k + 1), false) := by
        unfold sweepAwait
        rw [hfind]
      have hk : k < 19 := List.mem_range.mp (List.mem_of_find?_eq_some hfind)
      have hp : statusAt (sweepPollMs * (k + 1)) ≠ loading := by
        simpa using List.find?_some hfind
      refine ⟨?_, rfl, rfl, rfl, ?_, ?_, handleStatusChange_active_status now s, rfl⟩
      · rw [hA]
        show sweepPollMs * (k + 1) ≤ sweepTimeoutMs
        simp only [sweepPollMs, sweepTimeoutMs]
        omega
      · intro _
        rw [hA]
        exact ⟨hp, Nat.mul_mod_right _ _,
          Nat.mul_pos (by norm_num [sweepPollMs]) (Nat.succ_pos k)⟩
      · rw [hA]
        intro h
        exact absurd h (by simp)

theorem c8_sweep_wait_witness :
    (sweepAwait (fun _ => loading)).1 ≤ sweepTimeoutMs ∧
    (handleStatusChange 0 error { initCoreState with isTestActive := true }).status
        = error ∧
    sweepStepElapsed (fun _ => loading)
        = (sweepAwait (fun _ => loading)).1 + sweepSettleMs :=
  ⟨(c8_sweep_wait (fun _ => loading) 0 { initCoreState with isTestActive := true }).1,
   (c8_sweep_wait (fun _ => loading) 0
      { initCoreState with isTestActive := true }).2.2.2.2.2.2.1 rfl,
   (c8_sweep_wait (fun _ => loading) 0
      { initCoreState with isTestActive := true }).2.2.2.2.2.2.2⟩

end LiveStreamTester
